import Mathlib

/-!
Category service (`src/index.js`).

A shallow embedding of the category-creation service: the JavaScript values the
service handles, the runtime pieces it calls (`JSON.stringify`, property reads,
truthiness), the broker channel, the store, and the functions of `src/index.js`:
`getSecretFromLambda`, `connectRabbitMQ`, `publishEvent`, `startService` and the
`POST /categories` handler.

External collaborators (AWS Lambda, DynamoDB, RabbitMQ) are not code of the
service.  What they answer is an input of the model: every function takes the
answer of the collaborator it calls and is defined for each possible answer.
-/

set_option autoImplicit false
set_option maxRecDepth 8192

namespace CategoryService

/-! ## JavaScript values -/

/-- A JavaScript value, as far as the service handles one.  `num` stands for an
integer-valued number below `10^21` in magnitude (the ones `JSON.stringify` prints
in plain decimal); `obj` lists the own enumerable properties in enumeration
order. -/
inductive JsVal where
  | undefined
  | null
  | bool (b : Bool)
  | num (n : Int)
  | bigint (n : Int)
  | str (s : String)
  | arr (items : List JsVal)
  | obj (fields : List (String × JsVal))
  deriving Repr, Inhabited

namespace JsVal

mutual
/-- Structural equality of two values. -/
def beq : JsVal → JsVal → Bool
  | undefined, undefined => true
  | null, null => true
  | bool a, bool b => a == b
  | num a, num b => a == b
  | bigint a, bigint b => a == b
  | str a, str b => a == b
  | arr xs, arr ys => beqItems xs ys
  | obj xs, obj ys => beqFields xs ys
  | _, _ => false
/-- Structural equality of two lists of values. -/
def beqItems : List JsVal → List JsVal → Bool
  | [], [] => true
  | x :: xs, y :: ys => beq x y && beqItems xs ys
  | _, _ => false
/-- Structural equality of two property lists. -/
def beqFields : List (String × JsVal) → List (String × JsVal) → Bool
  | [], [] => true
  | (k, x) :: xs, (l, y) :: ys => (k == l) && beq x y && beqFields xs ys
  | _, _ => false
end

instance : BEq JsVal := ⟨beq⟩

/-- JavaScript truthiness (`if (v)`). -/
def truthy : JsVal → Bool
  | undefined => false
  | null => false
  | bool b => b
  | num n => n != 0
  | bigint n => n != 0
  | str s => s != ""
  | arr _ => true
  | obj _ => true

/-- Whether the value is `undefined` or `null`. -/
def isNullish : JsVal → Bool
  | undefined => true
  | null => true
  | _ => false

/-- A `TypeError` with the given message. -/
def typeError (msg : String) : JsVal :=
  obj [("name", str "TypeError"), ("message", str msg)]

/-- The value of `new Error(message)`. -/
def mkError (message : JsVal) : JsVal :=
  obj [("name", str "Error"), ("message", message)]

/-- The property read `v.key`: a `TypeError` on `undefined` and `null`, the
property (or `undefined`) on an object.  Primitives and arrays have none of the
properties the service reads. -/
def getProp : JsVal → String → Except JsVal JsVal
  | undefined, key => .error (typeError ("Cannot read properties of undefined (reading " ++ key ++ ")"))
  | null, key => .error (typeError ("Cannot read properties of null (reading " ++ key ++ ")"))
  | obj fields, key => .ok ((fields.lookup key).getD undefined)
  | _, _ => .ok undefined

mutual
/-- Whether a `BigInt` occurs in the value. -/
def hasBigInt : JsVal → Bool
  | bigint _ => true
  | arr xs => hasBigIntItems xs
  | obj fs => hasBigIntFields fs
  | _ => false
/-- Whether a `BigInt` occurs in a list of values. -/
def hasBigIntItems : List JsVal → Bool
  | [] => false
  | x :: xs => hasBigInt x || hasBigIntItems xs
/-- Whether a `BigInt` occurs in a property list. -/
def hasBigIntFields : List (String × JsVal) → Bool
  | [] => false
  | (_, x) :: xs => hasBigInt x || hasBigIntFields xs
end

end JsVal

/-! ## `JSON.stringify` -/

/-- One lower-case hexadecimal digit. -/
def hexDigit (n : Nat) : Char :=
  if n < 10 then Char.ofNat (48 + n) else Char.ofNat (87 + n)

/-- The JSON escape of one character of a string. -/
def escapeChar (c : Char) : String :=
  if c = Char.ofNat 34 then "\\\""
  else if c = Char.ofNat 92 then "\\\\"
  else if c = Char.ofNat 8 then "\\b"
  else if c = Char.ofNat 12 then "\\f"
  else if c = Char.ofNat 10 then "\\n"
  else if c = Char.ofNat 13 then "\\r"
  else if c = Char.ofNat 9 then "\\t"
  else if c.toNat < 32 then
    "\\u00" ++ String.mk [hexDigit (c.toNat / 16), hexDigit (c.toNat % 16)]
  else String.mk [c]

/-- The JSON text of a string: quoted, with the escapes of `JSON.stringify`. -/
def quoteJson (s : String) : String :=
  "\"" ++ String.join (s.data.map escapeChar) ++ "\""

mutual
/-- The result of `JSON.stringify(v)`: `undefined` for `undefined` (`none`), a
`TypeError` for a `BigInt`, the JSON text otherwise. -/
def stringify : JsVal → Except JsVal (Option String)
  | .undefined => .ok none
  | .null => .ok (some "null")
  | .bool b => .ok (some (if b then "true" else "false"))
  | .num n => .ok (some (toString n))
  | .bigint _ => .error (JsVal.typeError "Do not know how to serialize a BigInt")
  | .str s => .ok (some (quoteJson s))
  | .arr xs =>
    match stringifyItems xs with
    | .error e => .error e
    | .ok parts => .ok (some ("[" ++ ",".intercalate parts ++ "]"))
  | .obj fs =>
    match stringifyFields fs with
    | .error e => .error e
    | .ok parts => .ok (some ("\x7b" ++ ",".intercalate parts ++ "\x7d"))
/-- The texts of the elements of an array; an `undefined` element prints `null`. -/
def stringifyItems : List JsVal → Except JsVal (List String)
  | [] => .ok []
  | x :: xs =>
    match stringify x with
    | .error e => .error e
    | .ok t =>
      match stringifyItems xs with
      | .error e => .error e
      | .ok rest => .ok (t.getD "null" :: rest)
/-- The `"key":value` texts of the properties of an object; a property whose
value is `undefined` is left out. -/
def stringifyFields : List (String × JsVal) → Except JsVal (List String)
  | [] => .ok []
  | (k, x) :: xs =>
    match stringify x with
    | .error e => .error e
    | .ok t =>
      match stringifyFields xs with
      | .error e => .error e
      | .ok rest =>
        match t with
        | none => .ok rest
        | some text => .ok ((quoteJson k ++ ":" ++ text) :: rest)
end

/-- The call `Buffer.from(text)`: the bytes of a string, a `TypeError` on
`undefined`. -/
def bufferFrom : Option String → Except JsVal String
  | some text => .ok text
  | none => .error (JsVal.typeError "The first argument must be of type string")

/-! ## The broker channel, the store and what a run leaves behind -/

/-- A message accepted by the broker: the queue it went to, its bytes, and
whether it was sent with the persistent delivery option. -/
structure Message where
  queue : String
  content : String
  persistent : Bool
  deriving Repr, DecidableEq

/-- The third argument of `channel.sendToQueue`. -/
structure SendOptions where
  persistent : Bool
  deriving Repr, DecidableEq

/-- The amqplib channel object held in `channel`: open, or closed since it was
created. -/
inductive Channel where
  | opened
  | closed
  deriving Repr, DecidableEq

/-- The call `channel.sendToQueue(queue, content, options)` on a channel object: an
open channel accepts the message, a closed one throws. -/
def Channel.sendToQueue (ch : Channel) (queue : String) (content : String)
    (options : Option SendOptions) : Except JsVal Message :=
  match ch with
  | .opened =>
    .ok { queue := queue, content := content,
          persistent := match options with
            | some o => o.persistent
            | none => false }
  | .closed =>
    .error (.obj [("name", .str "IllegalOperationError"), ("message", .str "Channel closed")])

/-- An observable step of a request. -/
inductive Effect where
  | log (text : String) (args : List JsVal)
  | logError (text : String) (args : List JsVal)
  | storePut (params : JsVal)
  | putReported (err data : JsVal)
  | enqueued (m : Message)
  | respond (status : Nat) (body : JsVal)
  deriving Repr

/-- The table `Categories_gr8`, as key and record pairs. -/
abbrev Table := List (JsVal × JsVal)

/-- Modelled from the spec: the store is outside the repository; section 4.3 gives
its contract, "put(record) performs an upsert into a single table keyed by the
category name".  The record replaces any record of the same key. -/
def Table.upsert (t : Table) (key item : JsVal) : Table :=
  (key, item) :: t.filter (fun e => !(e.1 == key))

/-- The records a table holds under a key. -/
def Table.recordsOf (t : Table) (key : JsVal) : List JsVal :=
  (t.filter (fun e => e.1 == key)).map (fun e => e.2)

/-- What lies outside the process: the table and the queue of the broker. -/
structure World where
  table : Table
  queue : List Message
  deriving Repr

/-- The result of running a piece of the service: the world it leaves, the steps
it took, and the exception that escaped it, if one did. -/
structure Run where
  world : World
  trace : List Effect
  thrown : Option JsVal
  deriving Repr

/-- How `dynamoDB.put(params, callback)` answers: it throws at once, or it returns
and the callback is invoked later with `(err, data)`. -/
inductive PutOutcome where
  | throws (e : JsVal)
  | calls (err data : JsVal)
  deriving Repr

/-- The own property of an object literal, `undefined` when absent. -/
def field (v : JsVal) (key : String) : JsVal :=
  match v with
  | .obj fields => (fields.lookup key).getD .undefined
  | _ => .undefined

/-- Modelled from the spec: the table after `dynamoDB.put(params, callback)` has
answered.  A put that reports no error has upserted `params.Item` under its
`name` (section 4.3); any other answer leaves the table as it was. -/
def dynamoPut (params : JsVal) (outcome : PutOutcome) (t : Table) : Table :=
  match outcome with
  | .throws _ => t
  | .calls err _ =>
    if err.truthy then t
    else t.upsert (field (field params "Item") "name") (field params "Item")

/-! ## `publishEvent` -/

/-- The `try` block of `publishEvent`. -/
def publishEventTry (channel : Option Channel) (event : JsVal) (w : World) : Run :=
  match channel with
  | some ch =>
    match stringify event with
    | .error e => { world := w, trace := [], thrown := some e }
    | .ok text =>
      match bufferFrom text with
      | .error e => { world := w, trace := [], thrown := some e }
      | .ok content =>
        match ch.sendToQueue "category-events" content (some { persistent := true }) with
        | .error e => { world := w, trace := [], thrown := some e }
        | .ok m =>
          { world := { w with queue := w.queue ++ [m] },
            trace := [.enqueued m, .log "Event published to RabbitMQ:" [event]],
            thrown := none }
  | none =>
    { world := w, trace := [.logError "Channel is not initialized" []], thrown := none }

/-- The function `publishEvent(eventType, data)`: the `try` block, and the `catch`
that logs what the block threw. -/
def publishEvent (channel : Option Channel) (eventType data : JsVal) (w : World) : Run :=
  let event := JsVal.obj [("eventType", eventType), ("data", data)]
  let attempt := publishEventTry channel event w
  match attempt.thrown with
  | none => attempt
  | some error =>
    { world := attempt.world,
      trace := attempt.trace ++ [.logError "Error publishing event to RabbitMQ:" [error]],
      thrown := none }

/-! ## `POST /categories` -/

/-- A request as the handler receives it: `req.body` after `express.json()`, an
object. -/
structure Request where
  body : List (String × JsVal)
  deriving Repr

/-- The callback the handler passes to `dynamoDB.put`.  It runs after the handler
has returned, so what it throws escapes. -/
def putCallback (channel : Option Channel) (name err data : JsVal) (w : World) : Run :=
  if err.truthy then
    { world := w,
      trace := [.logError "Error saving category to DynamoDB:" [err],
        .respond 500 (.obj [("message", .str "Error saving category to DynamoDB"), ("error", err)])],
      thrown := none }
  else
    let saved := Effect.log "Category saved to DynamoDB:" [data]
    let event := JsVal.obj [("eventType", .str "CategoryCreated"),
      ("data", .obj [("name", name), ("nameCategory", name)])]
    match channel with
    | none =>
      { world := w, trace := [saved],
        thrown := some (JsVal.typeError "Cannot read properties of undefined (reading sendToQueue)") }
    | some ch =>
      match stringify event with
      | .error e => { world := w, trace := [saved], thrown := some e }
      | .ok text =>
        match bufferFrom text with
        | .error e => { world := w, trace := [saved], thrown := some e }
        | .ok content =>
          match ch.sendToQueue "category-events" content none with
          | .error e => { world := w, trace := [saved], thrown := some e }
          | .ok m =>
            { world := { w with queue := w.queue ++ [m] },
              trace := [saved, .enqueued m, .log "Event published to RabbitMQ:" [event],
                .respond 201 (.obj [("name", name), ("nameCategory", name)])],
              thrown := none }

/-- The handler of `POST /categories`, followed to the end of the callback it
registers.  `thrown` is an exception no `catch` of the handler received. -/
def postCategories (channel : Option Channel) (put : PutOutcome) (req : Request)
    (w : World) : Run :=
  let name := (req.body.lookup "name").getD .undefined
  let received := Effect.log "Received request to create category:" [.obj req.body]
  let params := JsVal.obj [("TableName", .str "Categories_gr8"),
    ("Item", .obj [("name", name), ("nameCategory", name)])]
  match put with
  | .throws error =>
    { world := w,
      trace := [received, .storePut params, .logError "Error creating category:" [error],
        .respond 500 (.obj [("message", .str "Error creating category"), ("error", error)])],
      thrown := none }
  | .calls err data =>
    let stored := { w with table := dynamoPut params (.calls err data) w.table }
    let callback := putCallback channel name err data stored
    { world := callback.world,
      trace := [received, .storePut params, .putReported err data] ++ callback.trace,
      thrown := callback.thrown }

/-- The handler of `GET /`. -/
def getRoot (w : World) : Run :=
  { world := w, trace := [.respond 200 (.str "Category Service Running")], thrown := none }

/-! ## Startup -/

/-- The `try` block of `getSecretFromLambda`.  `invoke` is what
`lambda.invoke(params).promise()` settles to, `parse` is `JSON.parse`. -/
def getSecretFromLambdaTry (parse : JsVal → Except JsVal JsVal)
    (invoke : Except JsVal JsVal) : Except JsVal JsVal := do
  let response ← invoke
  let payload ← parse (← response.getProp "Payload")
  if (← payload.getProp "errorMessage").truthy then
    throw (JsVal.mkError (← payload.getProp "errorMessage"))
  let body ← parse (← payload.getProp "body")
  parse (← body.getProp "secret")

/-- The function `getSecretFromLambda()`: the `try` block, and the `catch` that
logs the error and throws it again. -/
def getSecretFromLambda (parse : JsVal → Except JsVal JsVal)
    (invoke : Except JsVal JsVal) : Except JsVal JsVal × List Effect :=
  match getSecretFromLambdaTry parse invoke with
  | .ok secrets => (.ok secrets, [])
  | .error error => (.error error, [.logError "Error invoking Lambda function:" [error]])

/-- What the broker answers to the three calls of `connectRabbitMQ`. -/
structure Broker where
  connect : Except JsVal Unit
  createChannel : Except JsVal Channel
  assertQueue : Except JsVal Unit

/-- A step of `startService`. -/
inductive StartupStep where
  | console (e : Effect)
  | use (middleware : String)
  | configureAws (config : JsVal)
  | documentClient
  | mountDocs (path : String)
  | amqpConnect (url : String)
  | createChannel
  | assertQueue (queue : String) (durable : Bool)
  | route (method path : String)
  | listen (port : Nat)
  deriving Repr

/-- The function `connectRabbitMQ()`: the value it leaves in `channel` and the
steps it took.  `channel` is assigned once `createChannel` has answered. -/
def connectRabbitMQ (broker : Broker) : Option Channel × List StartupStep :=
  match broker.connect with
  | .error error =>
    (none, [.amqpConnect "amqp://3.136.72.14:5672/",
      .console (.logError "Error connecting to RabbitMQ:" [error])])
  | .ok _ =>
    match broker.createChannel with
    | .error error =>
      (none, [.amqpConnect "amqp://3.136.72.14:5672/", .createChannel,
        .console (.logError "Error connecting to RabbitMQ:" [error])])
    | .ok ch =>
      match broker.assertQueue with
      | .error error =>
        (some ch, [.amqpConnect "amqp://3.136.72.14:5672/", .createChannel,
          .assertQueue "category-events" true,
          .console (.logError "Error connecting to RabbitMQ:" [error])])
      | .ok _ =>
        (some ch, [.amqpConnect "amqp://3.136.72.14:5672/", .createChannel,
          .assertQueue "category-events" true,
          .console (.log "Connected to RabbitMQ" [])])

/-- The process after `startService()`: the steps taken, the value of `channel`,
and the exception that escaped, if one did. -/
structure Service where
  steps : List StartupStep
  channel : Option Channel
  thrown : Option JsVal
  deriving Repr

/-- The function `startService()`. -/
def startService (parse : JsVal → Except JsVal JsVal) (invoke : Except JsVal JsVal)
    (broker : Broker) : Service :=
  match getSecretFromLambda parse invoke with
  | (.error error, logs) =>
    { steps := logs.map .console ++ [.console (.logError "Error starting service: " [error])],
      channel := none, thrown := none }
  | (.ok secrets, logs) =>
    let before := logs.map StartupStep.console ++ [.use "cors", .use "express.json"]
    match secrets.getProp "AWS_ACCESS_KEY_ID" with
    | .error e => { steps := before, channel := none, thrown := some e }
    | .ok accessKeyId =>
      match secrets.getProp "AWS_SECRET_ACCESS_KEY" with
      | .error e => { steps := before, channel := none, thrown := some e }
      | .ok secretAccessKey =>
        let connected := connectRabbitMQ broker
        { steps := before ++
            [.configureAws (.obj [("region", .str "us-east-2"), ("accessKeyId", accessKeyId),
                ("secretAccessKey", secretAccessKey)]),
              .documentClient, .mountDocs "/api-docs"] ++
            connected.2 ++
            [.route "POST" "/categories", .route "GET" "/", .listen 8086,
              .console (.log "Category service listening at http://localhost:8086" [])],
          channel := connected.1, thrown := none }

/-- Whether the step configures the store client. -/
def StartupStep.isStoreConfig : StartupStep → Bool
  | .configureAws _ => true
  | .documentClient => true
  | _ => false

/-- Whether the step talks to the broker. -/
def StartupStep.isBroker : StartupStep → Bool
  | .amqpConnect _ => true
  | .createChannel => true
  | .assertQueue _ _ => true
  | _ => false

/-- Whether the step registers a route or starts listening. -/
def StartupStep.isServing : StartupStep → Bool
  | .route _ _ => true
  | .listen _ => true
  | _ => false

/-- The handler of `POST /categories` of a started service: it closes over the
`channel` that `startService` left. -/
def Service.post (s : Service) (put : PutOutcome) (req : Request) (w : World) : Run :=
  postCategories s.channel put req w

/-! ## Reading a trace -/

/-- The responses sent, in order. -/
def responses : List Effect → List (Nat × JsVal)
  | [] => []
  | .respond status body :: rest => (status, body) :: responses rest
  | _ :: rest => responses rest

/-- The messages enqueued, in order. -/
def enqueues : List Effect → List Message
  | [] => []
  | .enqueued m :: rest => m :: enqueues rest
  | _ :: rest => enqueues rest

/-- The store writes issued, in order. -/
def storePuts : List Effect → List JsVal
  | [] => []
  | .storePut params :: rest => params :: storePuts rest
  | _ :: rest => storePuts rest

/-- Whether the step is the store reporting success (a falsy `err`). -/
def Effect.isPutSuccess : Effect → Bool
  | .putReported err _ => !err.truthy
  | _ => false

/-- Whether the step is a message being enqueued. -/
def Effect.isEnqueue : Effect → Bool
  | .enqueued _ => true
  | _ => false

/-- Whether the step is a response with the given status. -/
def Effect.isRespond (status : Nat) : Effect → Bool
  | .respond s _ => s == status
  | _ => false

/-- Whether every step satisfying `p` has a step satisfying `q` before it. -/
def onlyAfter (p q : Effect → Bool) : List Effect → Bool
  | [] => true
  | e :: rest => !p e && (q e || onlyAfter p q rest)

/-- The checks of one invocation on its trace: one store write, at most one
message, a message only after the store reported success, a 201 only after a
message, and not both a 500 and a 201. -/
def wellOrdered (t : List Effect) : Bool :=
  (storePuts t).length == 1 &&
  decide ((enqueues t).length ≤ 1) &&
  onlyAfter Effect.isEnqueue Effect.isPutSuccess t &&
  onlyAfter (Effect.isRespond 201) Effect.isEnqueue t &&
  !(t.any (Effect.isRespond 500) && t.any (Effect.isRespond 201))

/-! ## Sample inputs -/

/-- The request of the example in section 8 of the specification. -/
def electronics : Request :=
  { body := [("name", .str "Electronics")] }

/-- A world with an empty table and an empty queue. -/
def emptyWorld : World :=
  { table := [], queue := [] }

/-- A broker that refuses the connection. -/
def brokerDown : Broker :=
  { connect := .error (JsVal.mkError (.str "connect ECONNREFUSED 3.136.72.14:5672")),
    createChannel := .ok .opened,
    assertQueue := .ok () }

/-- The secrets bundle of the sample Lambda. -/
def sampleSecrets : JsVal :=
  .obj [("AWS_ACCESS_KEY_ID", .str "AKIAEXAMPLE"), ("AWS_SECRET_ACCESS_KEY", .str "example")]

/-- The JSON text of a value, as a JavaScript string. -/
def textOf (v : JsVal) : JsVal :=
  match stringify v with
  | .ok (some text) => .str text
  | _ => .undefined

/-- The object whose text is `payload.body` in the sample Lambda answer. -/
def sampleBody : JsVal :=
  .obj [("secret", textOf sampleSecrets)]

/-- The object whose text is `response.Payload` in the sample Lambda answer. -/
def samplePayload : JsVal :=
  .obj [("statusCode", .num 200), ("body", textOf sampleBody)]

/-- The sample answer of `lambda.invoke(params).promise()`. -/
def sampleResponse : JsVal :=
  .obj [("StatusCode", .num 200), ("Payload", textOf samplePayload)]

/-- A Lambda answer whose payload reports an error. -/
def failedResponse : JsVal :=
  .obj [("StatusCode", .num 200), ("FunctionError", .str "Unhandled"),
    ("Payload", .str "timeout")]

/-- The function `JSON.parse` on the texts of the sample answers; any other text is
a `SyntaxError`. -/
def sampleParse (v : JsVal) : Except JsVal JsVal :=
  if v == textOf samplePayload then .ok samplePayload
  else if v == textOf sampleBody then .ok sampleBody
  else if v == textOf sampleSecrets then .ok sampleSecrets
  else if v == .str "timeout" then .ok (.obj [("errorMessage", .str "Task timed out")])
  else .error (.obj [("name", .str "SyntaxError"), ("message", .str "Unexpected token")])

/-! ## Lemmas on values -/

mutual
theorem stringify_ok_of_noBigInt :
    ∀ v : JsVal, v.hasBigInt = false → ∃ t, stringify v = .ok t
  | .undefined, _ => by simp [stringify]
  | .null, _ => by simp [stringify]
  | .bool _, _ => by simp [stringify]
  | .num _, _ => by simp [stringify]
  | .bigint _, h => by simp [JsVal.hasBigInt] at h
  | .str _, _ => by simp [stringify]
  | .arr xs, h => by
    have h1 : JsVal.hasBigIntItems xs = false := by simpa [JsVal.hasBigInt] using h
    obtain ⟨ps, hps⟩ := stringifyItems_ok_of_noBigInt xs h1
    simp [stringify, hps]
  | .obj fs, h => by
    have h1 : JsVal.hasBigIntFields fs = false := by simpa [JsVal.hasBigInt] using h
    obtain ⟨ps, hps⟩ := stringifyFields_ok_of_noBigInt fs h1
    simp [stringify, hps]
theorem stringifyItems_ok_of_noBigInt :
    ∀ xs : List JsVal, JsVal.hasBigIntItems xs = false → ∃ ps, stringifyItems xs = .ok ps
  | [], _ => by simp [stringifyItems]
  | x :: xs, h => by
    have h1 : x.hasBigInt = false ∧ JsVal.hasBigIntItems xs = false := by
      simpa [JsVal.hasBigIntItems] using h
    obtain ⟨t, ht⟩ := stringify_ok_of_noBigInt x h1.1
    obtain ⟨ps, hps⟩ := stringifyItems_ok_of_noBigInt xs h1.2
    simp [stringifyItems, ht, hps]
theorem stringifyFields_ok_of_noBigInt :
    ∀ fs : List (String × JsVal), JsVal.hasBigIntFields fs = false →
      ∃ ps, stringifyFields fs = .ok ps
  | [], _ => by simp [stringifyFields]
  | (k, x) :: fs, h => by
    have h1 : x.hasBigInt = false ∧ JsVal.hasBigIntFields fs = false := by
      simpa [JsVal.hasBigIntFields] using h
    obtain ⟨t, ht⟩ := stringify_ok_of_noBigInt x h1.1
    obtain ⟨ps, hps⟩ := stringifyFields_ok_of_noBigInt fs h1.2
    cases t with
    | none => simp [stringifyFields, ht, hps]
    | some text => simp [stringifyFields, ht, hps]
end

/-- An object without a `BigInt` inside serialises to a text. -/
theorem stringify_obj_of_noBigInt (fs : List (String × JsVal))
    (h : JsVal.hasBigIntFields fs = false) :
    ∃ text, stringify (.obj fs) = .ok (some text) := by
  obtain ⟨ps, hps⟩ := stringifyFields_ok_of_noBigInt fs h
  simp [stringify, hps]

mutual
theorem JsVal.beq_self : ∀ v : JsVal, JsVal.beq v v = true
  | .undefined => by simp [JsVal.beq]
  | .null => by simp [JsVal.beq]
  | .bool _ => by simp [JsVal.beq]
  | .num _ => by simp [JsVal.beq]
  | .bigint _ => by simp [JsVal.beq]
  | .str _ => by simp [JsVal.beq]
  | .arr xs => by simp [JsVal.beq, JsVal.beqItems_self xs]
  | .obj fs => by simp [JsVal.beq, JsVal.beqFields_self fs]
theorem JsVal.beqItems_self : ∀ xs : List JsVal, JsVal.beqItems xs xs = true
  | [] => by simp [JsVal.beqItems]
  | x :: xs => by simp [JsVal.beqItems, JsVal.beq_self x, JsVal.beqItems_self xs]
theorem JsVal.beqFields_self : ∀ fs : List (String × JsVal), JsVal.beqFields fs fs = true
  | [] => by simp [JsVal.beqFields]
  | (_, x) :: fs => by simp [JsVal.beqFields, JsVal.beq_self x, JsVal.beqFields_self fs]
end

mutual
theorem JsVal.eq_of_beq : ∀ a b : JsVal, JsVal.beq a b = true → a = b
  | .undefined, b, h => by cases b <;> simp_all [JsVal.beq]
  | .null, b, h => by cases b <;> simp_all [JsVal.beq]
  | .bool _, b, h => by cases b <;> simp_all [JsVal.beq]
  | .num _, b, h => by cases b <;> simp_all [JsVal.beq]
  | .bigint _, b, h => by cases b <;> simp_all [JsVal.beq]
  | .str _, b, h => by cases b <;> simp_all [JsVal.beq]
  | .arr xs, b, h => by
    cases b with
    | arr ys =>
      have h1 : JsVal.beqItems xs ys = true := by simpa [JsVal.beq] using h
      rw [JsVal.eq_of_beqItems xs ys h1]
    | _ => simp [JsVal.beq] at h
  | .obj fs, b, h => by
    cases b with
    | obj gs =>
      have h1 : JsVal.beqFields fs gs = true := by simpa [JsVal.beq] using h
      rw [JsVal.eq_of_beqFields fs gs h1]
    | _ => simp [JsVal.beq] at h
theorem JsVal.eq_of_beqItems : ∀ xs ys : List JsVal, JsVal.beqItems xs ys = true → xs = ys
  | [], ys, h => by cases ys <;> simp_all [JsVal.beqItems]
  | x :: xs, ys, h => by
    cases ys with
    | nil => simp [JsVal.beqItems] at h
    | cons y ys =>
      have h1 : JsVal.beq x y = true ∧ JsVal.beqItems xs ys = true := by
        simpa [JsVal.beqItems] using h
      rw [JsVal.eq_of_beq x y h1.1, JsVal.eq_of_beqItems xs ys h1.2]
theorem JsVal.eq_of_beqFields :
    ∀ fs gs : List (String × JsVal), JsVal.beqFields fs gs = true → fs = gs
  | [], gs, h => by cases gs <;> simp_all [JsVal.beqFields]
  | (k, x) :: fs, gs, h => by
    cases gs with
    | nil => simp [JsVal.beqFields] at h
    | cons g gs =>
      obtain ⟨l, y⟩ := g
      have h1 : (k = l ∧ JsVal.beq x y = true) ∧ JsVal.beqFields fs gs = true := by
        simpa [JsVal.beqFields] using h
      rw [h1.1.1, JsVal.eq_of_beq x y h1.1.2, JsVal.eq_of_beqFields fs gs h1.2]
end

/-- The test `a == b` on values holds exactly when they are equal. -/
theorem JsVal.beq_iff_eq (a b : JsVal) : (a == b) = true ↔ a = b :=
  ⟨JsVal.eq_of_beq a b, fun h => h ▸ JsVal.beq_self a⟩

/-- After an upsert the table holds one record under the key, the one written. -/
theorem Table.recordsOf_upsert (t : Table) (key item : JsVal) :
    (t.upsert key item).recordsOf key = [item] := by
  have hself : (key == key) = true := JsVal.beq_self key
  simp [Table.upsert, Table.recordsOf, List.filter_cons, hself, List.filter_filter]

/-- Soundness of `onlyAfter`: a step satisfying `p` has a step satisfying `q` among
the steps before it. -/
theorem onlyAfter_sound (p q : Effect → Bool) :
    ∀ l : List Effect, onlyAfter p q l = true →
      ∀ pre e post, l = pre ++ e :: post → p e = true → ∃ c ∈ pre, q c = true
  | [], _, pre, e, post, hl, _ => by simp at hl
  | x :: rest, h, pre, e, post, hl, hp => by
    have h1 : p x = false ∧ (q x = true ∨ onlyAfter p q rest = true) := by
      simpa [onlyAfter] using h
    cases pre with
    | nil =>
      simp only [List.nil_append, List.cons.injEq] at hl
      obtain ⟨hx, _⟩ := hl
      subst hx
      simp [hp] at h1
    | cons a pre =>
      simp only [List.cons_append, List.cons.injEq] at hl
      obtain ⟨hx, hrest⟩ := hl
      subst hx
      rcases h1.2 with hq | h2
      · exact ⟨x, by simp, hq⟩
      · obtain ⟨c, hc, hqc⟩ := onlyAfter_sound p q rest h2 pre e post hrest hp
        exact ⟨c, by simp [hc], hqc⟩

/-! ## The handler on its success path -/

/-- The event of a name without a `BigInt` inside serialises to a text. -/
theorem stringify_event_of_noBigInt (n : JsVal) (hjson : n.hasBigInt = false) :
    ∃ text, stringify (.obj [("eventType", .str "CategoryCreated"),
      ("data", .obj [("name", n), ("nameCategory", n)])]) = .ok (some text) := by
  apply stringify_obj_of_noBigInt
  simp [JsVal.hasBigIntFields, JsVal.hasBigInt, hjson]

/-- The `Item` of the parameters of a put. -/
theorem field_Item (t item : JsVal) :
    field (.obj [("TableName", t), ("Item", item)]) "Item" = item := rfl

/-- The `name` of a category record. -/
theorem field_name (n m : JsVal) :
    field (.obj [("name", n), ("nameCategory", m)]) "name" = n := rfl

/-- The run of the handler when the store reports success, the channel is open and
the event serialises to `text`. -/
theorem postCategories_opened (body : List (String × JsVal)) (n err data : JsVal)
    (w : World) (text : String)
    (hname : body.lookup "name" = some n) (hput : err.truthy = false)
    (htext : stringify (.obj [("eventType", .str "CategoryCreated"),
      ("data", .obj [("name", n), ("nameCategory", n)])]) = .ok (some text)) :
    postCategories (some .opened) (.calls err data) { body := body } w =
      { world :=
          { table := w.table.upsert n (.obj [("name", n), ("nameCategory", n)]),
            queue := w.queue ++
              [{ queue := "category-events", content := text, persistent := false }] },
        trace :=
          [.log "Received request to create category:" [.obj body],
            .storePut (.obj [("TableName", .str "Categories_gr8"),
              ("Item", .obj [("name", n), ("nameCategory", n)])]),
            .putReported err data,
            .log "Category saved to DynamoDB:" [data],
            .enqueued { queue := "category-events", content := text, persistent := false },
            .log "Event published to RabbitMQ:" [.obj [("eventType", .str "CategoryCreated"),
              ("data", .obj [("name", n), ("nameCategory", n)])]],
            .respond 201 (.obj [("name", n), ("nameCategory", n)])],
        thrown := none } := by
  simp [postCategories, putCallback, dynamoPut, field_Item, field_name, hname, hput, htext,
    bufferFrom, Channel.sendToQueue]

/-! ## The claims -/

/-- C1: for every request body carrying a name `n` (a JSON value), when the store
write reports success and the broker channel is established and open, the handler
of `POST /categories` sends exactly one response, with status 201 and the body
`{name: n, nameCategory: n}`, and no exception escapes. -/
theorem post_categories_created (body : List (String × JsVal)) (n err data : JsVal)
    (w : World) (hname : body.lookup "name" = some n) (hjson : n.hasBigInt = false)
    (hput : err.truthy = false) :
    (postCategories (some .opened) (.calls err data) { body := body } w).thrown = none ∧
    responses (postCategories (some .opened) (.calls err data) { body := body } w).trace =
      [(201, .obj [("name", n), ("nameCategory", n)])] := by
  obtain ⟨text, htext⟩ := stringify_event_of_noBigInt n hjson
  rw [postCategories_opened body n err data w text hname hput htext]
  simp [responses]

/-- Witness of C1 on the example of the specification: `{"name":"Electronics"}`. -/
theorem post_categories_created_witness :
    electronics.body.lookup "name" = some (.str "Electronics") ∧
    (JsVal.str "Electronics").hasBigInt = false ∧
    JsVal.null.truthy = false ∧
    (postCategories (some .opened) (.calls .null (.obj [])) electronics emptyWorld).thrown
      = none ∧
    responses (postCategories (some .opened) (.calls .null (.obj [])) electronics
      emptyWorld).trace =
      [(201, .obj [("name", .str "Electronics"), ("nameCategory", .str "Electronics")])] :=
  ⟨rfl, rfl, rfl,
    post_categories_created electronics.body (.str "Electronics") .null (.obj []) emptyWorld
      rfl rfl rfl⟩

/-- C2: for every request, channel and world, when the store write reports an
error `err`, the handler sends nothing to the queue, leaves the table as it was,
and sends exactly one response: status 500 with the body
`{message: 'Error saving category to DynamoDB', error: err}`. -/
theorem post_categories_store_error (channel : Option Channel) (req : Request)
    (err data : JsVal) (w : World) (herr : err.truthy = true) :
    (postCategories channel (.calls err data) req w).world = w ∧
    enqueues (postCategories channel (.calls err data) req w).trace = [] ∧
    (postCategories channel (.calls err data) req w).thrown = none ∧
    responses (postCategories channel (.calls err data) req w).trace =
      [(500, .obj [("message", .str "Error saving category to DynamoDB"), ("error", err)])] := by
  simp [postCategories, putCallback, dynamoPut, herr, enqueues, responses]

/-- Witness of C2: the store answers with a `ProvisionedThroughputExceededException`. -/
theorem post_categories_store_error_witness :
    (JsVal.mkError (.str "ProvisionedThroughputExceededException")).truthy = true ∧
    (postCategories (some .opened)
      (.calls (JsVal.mkError (.str "ProvisionedThroughputExceededException")) .null)
      electronics emptyWorld).world = emptyWorld ∧
    enqueues (postCategories (some .opened)
      (.calls (JsVal.mkError (.str "ProvisionedThroughputExceededException")) .null)
      electronics emptyWorld).trace = [] ∧
    (postCategories (some .opened)
      (.calls (JsVal.mkError (.str "ProvisionedThroughputExceededException")) .null)
      electronics emptyWorld).thrown = none ∧
    responses (postCategories (some .opened)
      (.calls (JsVal.mkError (.str "ProvisionedThroughputExceededException")) .null)
      electronics emptyWorld).trace =
      [(500, .obj [("message", .str "Error saving category to DynamoDB"),
        ("error", JsVal.mkError (.str "ProvisionedThroughputExceededException"))])] :=
  ⟨rfl, post_categories_store_error (some .opened) electronics
    (JsVal.mkError (.str "ProvisionedThroughputExceededException")) .null emptyWorld rfl⟩

/-- C3, on the code: after a startup whose broker connection was refused, the
service listens and `channel` is `undefined`; a `POST /categories` whose store
write succeeds then stores the record, throws a `TypeError` inside the store
callback at `channel.sendToQueue`, and sends no response at all, neither 201 nor
any other. -/
theorem post_categories_channel_undefined_sends_nothing :
    (startService sampleParse (.ok sampleResponse) brokerDown).channel = none ∧
    ((startService sampleParse (.ok sampleResponse) brokerDown).post
      (.calls .null (.obj [])) electronics emptyWorld).world.table =
      [(.str "Electronics",
        .obj [("name", .str "Electronics"), ("nameCategory", .str "Electronics")])] ∧
    responses ((startService sampleParse (.ok sampleResponse) brokerDown).post
      (.calls .null (.obj [])) electronics emptyWorld).trace = [] ∧
    ((startService sampleParse (.ok sampleResponse) brokerDown).post
      (.calls .null (.obj [])) electronics emptyWorld).thrown =
      some (JsVal.typeError "Cannot read properties of undefined (reading sendToQueue)") :=
  ⟨rfl, rfl, rfl, rfl⟩

/-- C4: for every request body carrying a name `n` (a JSON value), after a
successful store write with an open channel the handler enqueues exactly one
message, on the queue `category-events`, whose bytes are the JSON text of
`{eventType: "CategoryCreated", data: {name: n, nameCategory: n}}`; the one store
write it issued carries the item `{name: n, nameCategory: n}`, the same object as
the data of the event, and that item is the record the table holds for `n`. -/
theorem post_categories_event_matches_record (body : List (String × JsVal))
    (n err data : JsVal) (w : World) (hname : body.lookup "name" = some n)
    (hjson : n.hasBigInt = false) (hput : err.truthy = false) :
    ∃ text,
      stringify (.obj [("eventType", .str "CategoryCreated"),
        ("data", .obj [("name", n), ("nameCategory", n)])]) = .ok (some text) ∧
      (postCategories (some .opened) (.calls err data) { body := body } w).world.queue =
        w.queue ++ [{ queue := "category-events", content := text, persistent := false }] ∧
      enqueues (postCategories (some .opened) (.calls err data) { body := body } w).trace =
        [{ queue := "category-events", content := text, persistent := false }] ∧
      storePuts (postCategories (some .opened) (.calls err data) { body := body } w).trace =
        [.obj [("TableName", .str "Categories_gr8"),
          ("Item", .obj [("name", n), ("nameCategory", n)])]] ∧
      (postCategories (some .opened) (.calls err data) { body := body } w).world.table.recordsOf n
        = [.obj [("name", n), ("nameCategory", n)]] := by
  obtain ⟨text, htext⟩ := stringify_event_of_noBigInt n hjson
  refine ⟨text, htext, ?_⟩
  rw [postCategories_opened body n err data w text hname hput htext]
  simp [enqueues, storePuts, Table.recordsOf_upsert]

/-- Witness of C4 on the example of the specification: the message enqueued for
`{"name":"Electronics"}` is the text given in section 8. -/
theorem post_categories_event_matches_record_witness :
    electronics.body.lookup "name" = some (.str "Electronics") ∧
    (JsVal.str "Electronics").hasBigInt = false ∧
    JsVal.null.truthy = false ∧
    (postCategories (some .opened) (.calls .null (.obj [])) electronics emptyWorld).world.queue =
      [{ queue := "category-events",
         content := "\x7b\"eventType\":\"CategoryCreated\",\"data\":\x7b\"name\":\"Electronics\",\"nameCategory\":\"Electronics\"\x7d\x7d",
         persistent := false }] ∧
    ∃ text,
      stringify (.obj [("eventType", .str "CategoryCreated"),
        ("data", .obj [("name", .str "Electronics"), ("nameCategory", .str "Electronics")])])
        = .ok (some text) ∧
      (postCategories (some .opened) (.calls .null (.obj [])) electronics
        emptyWorld).world.queue =
        emptyWorld.queue ++
          [{ queue := "category-events", content := text, persistent := false }] ∧
      enqueues (postCategories (some .opened) (.calls .null (.obj [])) electronics
        emptyWorld).trace =
        [{ queue := "category-events", content := text, persistent := false }] ∧
      storePuts (postCategories (some .opened) (.calls .null (.obj [])) electronics
        emptyWorld).trace =
        [.obj [("TableName", .str "Categories_gr8"),
          ("Item", .obj [("name", .str "Electronics"), ("nameCategory", .str "Electronics")])]] ∧
      (postCategories (some .opened) (.calls .null (.obj [])) electronics
        emptyWorld).world.table.recordsOf (.str "Electronics")
        = [.obj [("name", .str "Electronics"), ("nameCategory", .str "Electronics")]] :=
  ⟨rfl, rfl, rfl, rfl,
    post_categories_event_matches_record electronics.body (.str "Electronics") .null (.obj [])
      emptyWorld rfl rfl rfl⟩

/-- C5, on the code: the message the handler enqueues for `{"name":"Electronics"}`
is not persistent, because its `sendToQueue` call passes no options; the same
event sent through `publishEvent` is persistent. -/
theorem post_categories_message_not_persistent :
    (postCategories (some .opened) (.calls .null (.obj [])) electronics
      emptyWorld).world.queue.map (fun m => m.persistent) = [false] ∧
    (publishEvent (some .opened) (.str "CategoryCreated")
      (.obj [("name", .str "Electronics"), ("nameCategory", .str "Electronics")])
      emptyWorld).world.queue.map (fun m => m.persistent) = [true] ∧
    (postCategories (some .opened) (.calls .null (.obj [])) electronics
      emptyWorld).world.queue.map (fun m => m.content) =
    (publishEvent (some .opened) (.str "CategoryCreated")
      (.obj [("name", .str "Electronics"), ("nameCategory", .str "Electronics")])
      emptyWorld).world.queue.map (fun m => m.content) :=
  ⟨rfl, rfl, rfl⟩

/-- C6: with the store a map keyed by the category name and the queue a list, the
channel open and both store writes reporting success: two `POST /categories`
requests carrying the same name `n` (a JSON value), run one after the other, each
get the response 201 with `{name: n, nameCategory: n}`, append two
`CategoryCreated` messages for `n` to the queue, and leave the table holding one
record for `n`, the item of the second write. -/
theorem post_categories_twice (body1 body2 : List (String × JsVal))
    (n err1 data1 err2 data2 : JsVal) (w : World)
    (hname1 : body1.lookup "name" = some n) (hname2 : body2.lookup "name" = some n)
    (hjson : n.hasBigInt = false)
    (hput1 : err1.truthy = false) (hput2 : err2.truthy = false) :
    responses (postCategories (some .opened) (.calls err1 data1) { body := body1 } w).trace =
      [(201, .obj [("name", n), ("nameCategory", n)])] ∧
    responses (postCategories (some .opened) (.calls err2 data2) { body := body2 }
      (postCategories (some .opened) (.calls err1 data1) { body := body1 } w).world).trace =
      [(201, .obj [("name", n), ("nameCategory", n)])] ∧
    (∃ text,
      stringify (.obj [("eventType", .str "CategoryCreated"),
        ("data", .obj [("name", n), ("nameCategory", n)])]) = .ok (some text) ∧
      (postCategories (some .opened) (.calls err2 data2) { body := body2 }
        (postCategories (some .opened) (.calls err1 data1) { body := body1 } w).world).world.queue
        = w.queue ++
          [{ queue := "category-events", content := text, persistent := false },
           { queue := "category-events", content := text, persistent := false }]) ∧
    storePuts (postCategories (some .opened) (.calls err2 data2) { body := body2 }
      (postCategories (some .opened) (.calls err1 data1) { body := body1 } w).world).trace =
      [.obj [("TableName", .str "Categories_gr8"),
        ("Item", .obj [("name", n), ("nameCategory", n)])]] ∧
    (postCategories (some .opened) (.calls err2 data2) { body := body2 }
      (postCategories (some .opened) (.calls err1 data1) { body := body1 } w).world).world.table.recordsOf n
      = [.obj [("name", n), ("nameCategory", n)]] := by
  obtain ⟨text, htext⟩ := stringify_event_of_noBigInt n hjson
  rw [postCategories_opened body1 n err1 data1 w text hname1 hput1 htext,
    postCategories_opened body2 n err2 data2 _ text hname2 hput2 htext]
  refine ⟨by simp [responses], by simp [responses], ⟨text, htext, by simp⟩,
    by simp [storePuts], by simp [Table.recordsOf_upsert]⟩

/-- Witness of C6: `{"name":"Electronics"}` posted twice into an empty world. -/
theorem post_categories_twice_witness :
    electronics.body.lookup "name" = some (.str "Electronics") ∧
    (JsVal.str "Electronics").hasBigInt = false ∧
    JsVal.null.truthy = false ∧
    (postCategories (some .opened) (.calls .null (.obj [])) electronics
      (postCategories (some .opened) (.calls .null (.obj [])) electronics
        emptyWorld).world).world.table =
      [(.str "Electronics",
        .obj [("name", .str "Electronics"), ("nameCategory", .str "Electronics")])] ∧
    ((postCategories (some .opened) (.calls .null (.obj [])) electronics
      (postCategories (some .opened) (.calls .null (.obj [])) electronics
        emptyWorld).world).world.queue.map (fun m => m.queue)) =
      ["category-events", "category-events"] ∧
    (postCategories (some .opened) (.calls .null (.obj [])) electronics
      (postCategories (some .opened) (.calls .null (.obj [])) electronics
        emptyWorld).world).world.table.recordsOf (.str "Electronics")
      = [.obj [("name", .str "Electronics"), ("nameCategory", .str "Electronics")]] :=
  ⟨rfl, rfl, rfl, rfl, rfl,
    (post_categories_twice electronics.body electronics.body (.str "Electronics") .null
      (.obj []) .null (.obj []) emptyWorld rfl rfl rfl rfl rfl).2.2.2.2⟩

/-- C7: `publishEvent(eventType, data)` returns normally for every channel,
event type and data, and never touches the table.  It enqueues exactly what its
trace records: one persistent message on `category-events` carrying the JSON text
of `{eventType, data}` when the channel is open and the event serialises, and
nothing when the channel is `undefined`, when serialisation throws or when
`sendToQueue` throws.  In the last two cases the `try` block does throw, and the
`catch` keeps the exception from the caller. -/
theorem publishEvent_never_throws (channel : Option Channel) (eventType data : JsVal)
    (w : World) :
    (publishEvent channel eventType data w).thrown = none ∧
    (publishEvent channel eventType data w).world.table = w.table ∧
    (publishEvent channel eventType data w).world.queue =
      w.queue ++ enqueues (publishEvent channel eventType data w).trace ∧
    enqueues (publishEvent channel eventType data w).trace =
      (match channel, stringify (.obj [("eventType", eventType), ("data", data)]) with
        | some .opened, .ok (some text) =>
          [{ queue := "category-events", content := text, persistent := true }]
        | _, _ => []) ∧
    (∀ ch e, stringify (.obj [("eventType", eventType), ("data", data)]) = .error e →
      (publishEventTry (some ch) (.obj [("eventType", eventType), ("data", data)]) w).thrown
        = some e) ∧
    (∀ text, stringify (.obj [("eventType", eventType), ("data", data)]) = .ok (some text) →
      (publishEventTry (some .closed) (.obj [("eventType", eventType), ("data", data)])
        w).thrown =
        some (.obj [("name", .str "IllegalOperationError"), ("message", .str "Channel closed")])) := by
  refine ⟨?_, ?_, ?_, ?_, ?_, ?_⟩
  · cases channel with
    | none => simp [publishEvent, publishEventTry]
    | some ch =>
      cases hs : stringify (.obj [("eventType", eventType), ("data", data)]) with
      | error e => simp [publishEvent, publishEventTry, hs]
      | ok text =>
        cases text <;> cases ch <;>
          simp [publishEvent, publishEventTry, hs, bufferFrom, Channel.sendToQueue]
  · cases channel with
    | none => simp [publishEvent, publishEventTry]
    | some ch =>
      cases hs : stringify (.obj [("eventType", eventType), ("data", data)]) with
      | error e => simp [publishEvent, publishEventTry, hs]
      | ok text =>
        cases text <;> cases ch <;>
          simp [publishEvent, publishEventTry, hs, bufferFrom, Channel.sendToQueue]
  · cases channel with
    | none => simp [publishEvent, publishEventTry, enqueues]
    | some ch =>
      cases hs : stringify (.obj [("eventType", eventType), ("data", data)]) with
      | error e => simp [publishEvent, publishEventTry, hs, enqueues]
      | ok text =>
        cases text <;> cases ch <;>
          simp [publishEvent, publishEventTry, hs, bufferFrom, Channel.sendToQueue, enqueues]
  · cases channel with
    | none => simp [publishEvent, publishEventTry, enqueues]
    | some ch =>
      cases hs : stringify (.obj [("eventType", eventType), ("data", data)]) with
      | error e => simp [publishEvent, publishEventTry, hs, enqueues]
      | ok text =>
        cases text <;> cases ch <;>
          simp [publishEvent, publishEventTry, hs, bufferFrom, Channel.sendToQueue, enqueues]
  · intro ch e hs
    simp [publishEventTry, hs]
  · intro text hs
    simp [publishEventTry, hs, bufferFrom, Channel.sendToQueue]

/-- Witness of C7: a `BigInt` in the data makes `JSON.stringify` throw inside the
`try` block, and `publishEvent` still returns normally with nothing enqueued. -/
theorem publishEvent_never_throws_witness :
    stringify (.obj [("eventType", .str "CategoryCreated"), ("data", .bigint 1)]) =
      .error (JsVal.typeError "Do not know how to serialize a BigInt") ∧
    (publishEventTry (some .opened)
      (.obj [("eventType", .str "CategoryCreated"), ("data", .bigint 1)]) emptyWorld).thrown =
      some (JsVal.typeError "Do not know how to serialize a BigInt") ∧
    (publishEvent (some .opened) (.str "CategoryCreated") (.bigint 1) emptyWorld).thrown
      = none :=
  ⟨rfl,
    (publishEvent_never_throws (some .opened) (.str "CategoryCreated") (.bigint 1)
      emptyWorld).2.2.2.2.1 .opened _ rfl,
    (publishEvent_never_throws (some .opened) (.str "CategoryCreated") (.bigint 1)
      emptyWorld).1⟩

/-- C8, on the code: with `channel` undefined and a store write that succeeds,
the `TypeError` raised inside the store callback during the publish step is not
received by the `catch` of the handler, although the callback is written inside
the `try`: the exception escapes, the record is stored, and no response is sent,
neither the 500 with the message `Error creating category` nor any other. -/
theorem post_categories_callback_exception_escapes :
    (postCategories none (.calls .null (.obj [("ok", .bool true)]))
      { body := [("name", .str "Books")] } emptyWorld).thrown =
      some (JsVal.typeError "Cannot read properties of undefined (reading sendToQueue)") ∧
    responses (postCategories none (.calls .null (.obj [("ok", .bool true)]))
      { body := [("name", .str "Books")] } emptyWorld).trace = [] ∧
    (responses (postCategories none (.calls .null (.obj [("ok", .bool true)]))
      { body := [("name", .str "Books")] } emptyWorld).trace).filter (fun r => r.1 == 500)
      = [] ∧
    (postCategories none (.calls .null (.obj [("ok", .bool true)]))
      { body := [("name", .str "Books")] } emptyWorld).world.table =
      [(.str "Books", .obj [("name", .str "Books"), ("nameCategory", .str "Books")])] :=
  ⟨rfl, rfl, rfl, rfl⟩

/-- The steps of a startup whose secrets could not be fetched are log lines only. -/
theorem startService_of_secret_error (parse : JsVal → Except JsVal JsVal)
    (invoke : Except JsVal JsVal) (broker : Broker) (e : JsVal)
    (h : getSecretFromLambdaTry parse invoke = .error e) :
    startService parse invoke broker =
      { steps := [.console (.logError "Error invoking Lambda function:" [e]),
          .console (.logError "Error starting service: " [e])],
        channel := none, thrown := none } := by
  simp [startService, getSecretFromLambda, h]

/-- C9: startup is all-or-nothing on secrets and tolerant of the broker.
`getSecretFromLambda` fails when the invocation is rejected, when the payload
does not parse, and when the payload carries a truthy `errorMessage`; whenever it
fails, `startService` returns having only logged: no step configures the store,
talks to the broker, registers a route or listens.  When it returns a secrets
object and the broker refuses the connection or the channel, `startService` still
registers both routes and listens on 8086, with `channel` left `undefined`. -/
theorem startService_all_or_nothing (parse : JsVal → Except JsVal JsVal)
    (invoke : Except JsVal JsVal) (broker : Broker) :
    (∀ e, invoke = .error e → (getSecretFromLambda parse invoke).1 = .error e) ∧
    (∀ response text e, invoke = .ok response → response.getProp "Payload" = .ok text →
      parse text = .error e → (getSecretFromLambda parse invoke).1 = .error e) ∧
    (∀ response text payload message, invoke = .ok response →
      response.getProp "Payload" = .ok text → parse text = .ok payload →
      payload.getProp "errorMessage" = .ok message → message.truthy = true →
      (getSecretFromLambda parse invoke).1 = .error (JsVal.mkError message)) ∧
    (∀ e, (getSecretFromLambda parse invoke).1 = .error e →
      (startService parse invoke broker).steps.all
        (fun s => !s.isStoreConfig && !s.isBroker && !s.isServing) = true ∧
      (startService parse invoke broker).channel = none ∧
      (startService parse invoke broker).thrown = none) ∧
    (∀ secrets e, (getSecretFromLambda parse invoke).1 = .ok secrets →
      secrets.isNullish = false →
      (broker.connect = .error e ∨ broker.createChannel = .error e) →
      StartupStep.route "POST" "/categories" ∈ (startService parse invoke broker).steps ∧
      StartupStep.route "GET" "/" ∈ (startService parse invoke broker).steps ∧
      StartupStep.listen 8086 ∈ (startService parse invoke broker).steps ∧
      (startService parse invoke broker).channel = none ∧
      (startService parse invoke broker).thrown = none) := by
  refine ⟨?_, ?_, ?_, ?_, ?_⟩
  · intro e h
    simp [getSecretFromLambda, getSecretFromLambdaTry, h, bind, Except.bind]
  · intro response text e h1 h2 h3
    simp [getSecretFromLambda, getSecretFromLambdaTry, h1, h2, h3, bind, Except.bind]
  · intro response text payload message h1 h2 h3 h4 h5
    simp [getSecretFromLambda, getSecretFromLambdaTry, h1, h2, h3, h4, h5, bind, Except.bind,
      throw, throwThe, MonadExceptOf.throw]
  · intro e h
    cases ht : getSecretFromLambdaTry parse invoke with
    | ok secrets => simp [getSecretFromLambda, ht] at h
    | error e2 =>
      rw [startService_of_secret_error parse invoke broker e2 ht]
      simp [StartupStep.isStoreConfig, StartupStep.isBroker, StartupStep.isServing]
  · intro secrets e h hn hb
    cases ht : getSecretFromLambdaTry parse invoke with
    | error e2 => simp [getSecretFromLambda, ht] at h
    | ok secrets2 =>
      have hs : secrets2 = secrets := by simpa [getSecretFromLambda, ht] using h
      subst hs
      have hp : ∀ key, ∃ v, secrets2.getProp key = .ok v := by
        intro key
        cases secrets2 <;> simp [JsVal.getProp, JsVal.isNullish] at hn ⊢
      obtain ⟨k1, hk1⟩ := hp "AWS_ACCESS_KEY_ID"
      obtain ⟨k2, hk2⟩ := hp "AWS_SECRET_ACCESS_KEY"
      have hc : (connectRabbitMQ broker).1 = none := by
        rcases hb with hb | hb
        · simp [connectRabbitMQ, hb]
        · cases hconn : broker.connect <;> simp [connectRabbitMQ, hb, hconn]
      simp [startService, getSecretFromLambda, ht, hk1, hk2, hc]

/-- Witness of C9: the sample Lambda answer with a refused broker connection
starts a listening service without a channel; an answer whose payload reports
`errorMessage` aborts the startup. -/
theorem startService_all_or_nothing_witness :
    (getSecretFromLambda sampleParse (.ok sampleResponse)).1 = .ok sampleSecrets ∧
    (StartupStep.listen 8086 ∈
        (startService sampleParse (.ok sampleResponse) brokerDown).steps ∧
      (startService sampleParse (.ok sampleResponse) brokerDown).channel = none) ∧
    (getSecretFromLambda sampleParse (.ok failedResponse)).1 =
      .error (JsVal.mkError (.str "Task timed out")) ∧
    (startService sampleParse (.ok failedResponse) brokerDown).steps.all
      (fun s => !s.isStoreConfig && !s.isBroker && !s.isServing) = true :=
  ⟨rfl,
    ⟨((startService_all_or_nothing sampleParse (.ok sampleResponse) brokerDown).2.2.2.2
        sampleSecrets _ rfl rfl (Or.inl rfl)).2.2.1,
      ((startService_all_or_nothing sampleParse (.ok sampleResponse) brokerDown).2.2.2.2
        sampleSecrets _ rfl rfl (Or.inl rfl)).2.2.2.1⟩,
    (startService_all_or_nothing sampleParse (.ok failedResponse) brokerDown).2.2.1
      failedResponse (.str "timeout") (.obj [("errorMessage", .str "Task timed out")])
      (.str "Task timed out") rfl rfl rfl rfl rfl,
    ((startService_all_or_nothing sampleParse (.ok failedResponse) brokerDown).2.2.2.1
      (JsVal.mkError (.str "Task timed out")) rfl).1⟩

/-- Every run of the handler passes the checks of `wellOrdered`. -/
theorem postCategories_wellOrdered (channel : Option Channel) (put : PutOutcome)
    (req : Request) (w : World) :
    wellOrdered (postCategories channel put req w).trace = true := by
  cases put with
  | throws e =>
    simp [postCategories, wellOrdered, storePuts, enqueues, onlyAfter, Effect.isEnqueue,
      Effect.isPutSuccess, Effect.isRespond]
  | calls err data =>
    cases herr : err.truthy with
    | true =>
      simp [postCategories, putCallback, herr, wellOrdered, storePuts, enqueues, onlyAfter,
        Effect.isEnqueue, Effect.isPutSuccess, Effect.isRespond]
    | false =>
      cases channel with
      | none =>
        simp [postCategories, putCallback, herr, wellOrdered, storePuts, enqueues, onlyAfter,
          Effect.isEnqueue, Effect.isPutSuccess, Effect.isRespond]
      | some ch =>
        cases hs : stringify (.obj [("eventType", .str "CategoryCreated"),
          ("data", .obj [("name", (req.body.lookup "name").getD .undefined),
            ("nameCategory", (req.body.lookup "name").getD .undefined)])]) with
        | error e =>
          simp [postCategories, putCallback, herr, hs, wellOrdered, storePuts, enqueues,
            onlyAfter, Effect.isEnqueue, Effect.isPutSuccess, Effect.isRespond]
        | ok text =>
          cases text <;> cases ch <;>
            simp [postCategories, putCallback, herr, hs, bufferFrom, Channel.sendToQueue,
              wellOrdered, storePuts, enqueues, onlyAfter, Effect.isEnqueue,
              Effect.isPutSuccess, Effect.isRespond]

/-- C10: on the trace of every invocation of the handler, whatever the channel,
the answer of the store and the request: exactly one store write is issued; at
most one message is enqueued; a message is enqueued only after the store has
reported success; a 201 response is sent only after a message was enqueued; at
most one response is sent, so never both a 500 and a 201. -/
theorem post_categories_trace_order (channel : Option Channel) (put : PutOutcome)
    (req : Request) (w : World) :
    (storePuts (postCategories channel put req w).trace).length = 1 ∧
    (enqueues (postCategories channel put req w).trace).length ≤ 1 ∧
    (∀ pre e post, (postCategories channel put req w).trace = pre ++ e :: post →
      e.isEnqueue = true → ∃ c ∈ pre, c.isPutSuccess = true) ∧
    (∀ pre e post, (postCategories channel put req w).trace = pre ++ e :: post →
      e.isRespond 201 = true → ∃ c ∈ pre, c.isEnqueue = true) ∧
    ¬ ((∃ a ∈ (postCategories channel put req w).trace, a.isRespond 500 = true) ∧
       (∃ b ∈ (postCategories channel put req w).trace, b.isRespond 201 = true)) := by
  have h := postCategories_wellOrdered channel put req w
  simp only [wellOrdered, Bool.and_eq_true, beq_iff_eq, decide_eq_true_eq,
    Bool.not_eq_true', Bool.and_eq_false_iff] at h
  obtain ⟨⟨⟨⟨h1, h2⟩, h3⟩, h4⟩, h5⟩ := h
  refine ⟨h1, h2, onlyAfter_sound _ _ _ h3, onlyAfter_sound _ _ _ h4, ?_⟩
  rintro ⟨⟨a, ha, ha2⟩, ⟨b, hb, hb2⟩⟩
  rcases h5 with h5 | h5
  · have := List.any_eq_true.mpr ⟨a, ha, ha2⟩
    simp [this] at h5
  · have := List.any_eq_true.mpr ⟨b, hb, hb2⟩
    simp [this] at h5

/-- Witness of C10 on `{"name":"Electronics"}` with an open channel and a successful
store write: the message enqueued has the success report of the store before it,
and the 201 response has the message before it. -/
theorem post_categories_trace_order_witness :
    (∃ c ∈ [Effect.log "Received request to create category:" [.obj electronics.body],
        .storePut (.obj [("TableName", .str "Categories_gr8"),
          ("Item", .obj [("name", .str "Electronics"), ("nameCategory", .str "Electronics")])]),
        .putReported .null (.obj []),
        .log "Category saved to DynamoDB:" [.obj []]],
      c.isPutSuccess = true) ∧
    (storePuts (postCategories (some .opened) (.calls .null (.obj [])) electronics
      emptyWorld).trace).length = 1 :=
  ⟨(post_categories_trace_order (some .opened) (.calls .null (.obj [])) electronics
      emptyWorld).2.2.1 _
      (.enqueued { queue := "category-events",
                   content := "\x7b\"eventType\":\"CategoryCreated\",\"data\":\x7b\"name\":\"Electronics\",\"nameCategory\":\"Electronics\"\x7d\x7d",
                   persistent := false })
      [.log "Event published to RabbitMQ:" [.obj [("eventType", .str "CategoryCreated"),
          ("data", .obj [("name", .str "Electronics"), ("nameCategory", .str "Electronics")])]],
        .respond 201 (.obj [("name", .str "Electronics"), ("nameCategory", .str "Electronics")])]
      rfl rfl,
    (post_categories_trace_order (some .opened) (.calls .null (.obj [])) electronics
      emptyWorld).1⟩

end CategoryService
